import Mathlib

/-!
Shallow embedding of the Fedi3 Linux runner scaffold
(`src/app/linux/runner/main.cc` and `src/app/linux/runner/my_application.h`).

The runner is pure glue around an external GUI toolkit (GTK / GObject):

  int main(int argc, char** argv) {
    g_autoptr(MyApplication) app = my_application_new();
    return g_application_run(G_APPLICATION(app), argc, argv);
  }

The header declares, via `G_DECLARE_FINAL_TYPE`, a final GObject type
`MyApplication` specializing `GtkApplication`, and the factory
`my_application_new`.  The toolkit's run routine and the factory's body
(`my_application.cc`) are not part of the given sources, so the run routine
is kept abstract as an oracle and the factory is modelled from the spec.
`main` is embedded as a pure function that also emits the trace of the
externally observable events it causes: construction of the application
instance, the single call into the toolkit's run routine, and the
automatic-scope release of the instance when `main`'s scope ends.
-/

namespace Fedi3

/-- Outcome of the toolkit's blocking run routine: either a normal return
carrying the integer status, or a toolkit-defined failure. -/
inductive RunOutcome where
  | ok (status : Int)
  | err (e : String)
deriving DecidableEq, Repr

/-- A GObject instance handle: an address plus the name of its concrete
runtime type. -/
structure Object where
  addr : Nat
  ty : String
deriving DecidableEq, Repr

/-- The parent links of the type hierarchy visible to this scaffold:
`my_application.h` declares `MyApplication` with parent `GtkApplication`
(fourth macro argument), and `GtkApplication` specializes the toolkit's
base `GApplication` (attested by the `G_APPLICATION` cast in `main.cc`). -/
def parentOf : String → Option String
  | "MyApplication" => some "GtkApplication"
  | "GtkApplication" => some "GApplication"
  | _ => none

/-- Bounded walk up the parent links. -/
def isAFuel : Nat → String → String → Bool
  | 0, _, _ => false
  | Nat.succ n, t, base =>
    t = base ||
      match parentOf t with
      | some p => isAFuel n p base
      | none => false

/-- Runtime type conformance: `t` is a `base` if `base` lies on `t`'s
parent chain (the chain here has depth at most three). -/
def is_a (t base : String) : Bool := isAFuel 3 t base

/-- Process-wide state of the toolkit's runtime type system, as far as this
scaffold touches it: whether `MyApplication`'s type has been registered,
how many registration actions have been performed, the next fresh address,
and the addresses of the live instances. -/
structure GTypeState where
  registered : Bool
  registrations : Nat
  nextAddr : Nat
  live : List Nat
deriving DecidableEq, Repr

/-- The state at process start: nothing registered, nothing live. -/
def initState : GTypeState :=
  { registered := false, registrations := 0, nextAddr := 0, live := [] }

/-- Modelled from the spec: the body of `my_application_new` lives in
`my_application.cc`, which is not among the given sources (the header only
declares it).  Spec 4.2: the factory takes no input, "registers (at first
use) and instantiates" the concrete type — registration is one-time,
idempotent, process-wide — and returns a newly constructed instance. -/
def my_application_new (s : GTypeState) : GTypeState × Object :=
  let s1 :=
    if s.registered then s
    else { s with registered := true, registrations := s.registrations + 1 }
  ({ s1 with nextAddr := s1.nextAddr + 1, live := s1.nextAddr :: s1.live },
   { addr := s1.nextAddr, ty := "MyApplication" })

/-- The `G_APPLICATION` checked cast of `main.cc`: GObject casts only
reinterpret the pointer, so the handle is returned unchanged. -/
def G_APPLICATION (o : Object) : Object := o

/-- The externally observable events `main` causes, in order. -/
inductive Event where
  | construct (app : Object)
  | runCall (app : Object) (argc : Nat) (argv : List String)
  | release (app : Object)
deriving DecidableEq, Repr

def isConstruct : Event → Bool
  | Event.construct _ => true
  | _ => false

def isRunCall : Event → Bool
  | Event.runCall _ _ _ => true
  | _ => false

def isRelease : Event → Bool
  | Event.release _ => true
  | _ => false

/-- The external toolkit, kept abstract: `g_application_run` is an oracle
from the passed instance and arguments to an outcome. -/
structure Toolkit where
  runOutcome : Object → Nat → List String → RunOutcome

/-- Embedding of `main` (`src/app/linux/runner/main.cc`): construct the
application instance via the factory, hand the cast instance and the
process arguments to the toolkit's run routine, and return its outcome;
the `g_autoptr` scope releases the instance after the run routine is done,
whatever the outcome.  The result carries the outcome, the final type
state, and the event trace. -/
def main (tk : Toolkit) (s : GTypeState) (argc : Nat) (argv : List String) :
    RunOutcome × GTypeState × List Event :=
  let p := my_application_new s
  let out := tk.runOutcome (G_APPLICATION p.2) argc argv
  (out, p.1,
   [Event.construct p.2,
    Event.runCall (G_APPLICATION p.2) argc argv,
    Event.release p.2])

/-- Freshness invariant of the type-system state: every live address is
below the next address to hand out. -/
def Fresh (s : GTypeState) : Prop := ∀ a ∈ s.live, a < s.nextAddr

/-- A concrete toolkit whose run routine always returns status 0. -/
def tkOk0 : Toolkit := { runOutcome := fun _ _ _ => RunOutcome.ok 0 }

/-- The trace of `main`, in closed form. -/
theorem main_trace (tk : Toolkit) (s : GTypeState) (argc : Nat)
    (argv : List String) :
    (main tk s argc argv).2.2 =
      [Event.construct (my_application_new s).2,
       Event.runCall (my_application_new s).2 argc argv,
       Event.release (my_application_new s).2] := rfl

/-- C1: when the toolkit's run routine returns the integer status `r`,
`main` returns exactly `r` as the process exit code, applying no
transformation and defining no exit codes of its own. -/
theorem C1_exit_code_is_run_status (tk : Toolkit) (s : GTypeState)
    (argc : Nat) (argv : List String) (r : Int)
    (h : tk.runOutcome (G_APPLICATION (my_application_new s).2) argc argv =
      RunOutcome.ok r) :
    (main tk s argc argv).1 = RunOutcome.ok r := h

/-- Witness for C1 at a concrete toolkit and arguments. -/
theorem C1_exit_code_is_run_status_witness :
    (main tkOk0 initState 0 []).1 = RunOutcome.ok 0 :=
  C1_exit_code_is_run_status tkOk0 initState 0 [] 0 rfl

/-- C2: every invocation of `main` (the empty argument list included)
constructs exactly one Application instance and calls the toolkit's run
routine exactly once, the construction strictly preceding the run call. -/
theorem C2_construct_once_run_once (tk : Toolkit) (s : GTypeState)
    (argc : Nat) (argv : List String) :
    ((main tk s argc argv).2.2.countP isConstruct = 1 ∧
     (main tk s argc argv).2.2.countP isRunCall = 1) ∧
    (main tk s argc argv).2.2.findIdx isConstruct <
      (main tk s argc argv).2.2.findIdx isRunCall := by
  rw [main_trace]
  refine ⟨⟨rfl, rfl⟩, ?_⟩
  show (0 : Nat) < 1
  exact Nat.zero_lt_one

/-- C3: on every exit path from `main` — the toolkit's error outcomes
included — the constructed Application instance is released exactly once,
and the release comes after the run call, whatever the run routine
returned. -/
theorem C3_release_once_after_run (tk : Toolkit) (s : GTypeState)
    (argc : Nat) (argv : List String) :
    (main tk s argc argv).2.2.countP isRelease = 1 ∧
    (main tk s argc argv).2.2.findIdx isRunCall <
      (main tk s argc argv).2.2.findIdx isRelease ∧
    Event.release (my_application_new s).2 ∈ (main tk s argc argv).2.2 := by
  rw [main_trace]
  refine ⟨rfl, ?_, ?_⟩
  · show (1 : Nat) < 2
    exact Nat.one_lt_two
  · simp

/-- C4: the argument count and argument vector given to `main` are passed
unchanged to the toolkit's run routine: the unique run-call event carries
exactly `argc` and `argv`. -/
theorem C4_args_forwarded_verbatim (tk : Toolkit) (s : GTypeState)
    (argc : Nat) (argv : List String) :
    Event.runCall (my_application_new s).2 argc argv ∈
      (main tk s argc argv).2.2 ∧
    (main tk s argc argv).1 =
      tk.runOutcome (G_APPLICATION (my_application_new s).2) argc argv := by
  rw [main_trace]
  exact ⟨by simp, rfl⟩

/-- C5: the factory takes no input beyond the process-wide type-system
state and every call returns a newly constructed instance (its address was
not live before the call) whose concrete type is `MyApplication`,
conforming to both the toolkit's base `GApplication` capability and the
`GtkApplication` specialization it derives from. -/
theorem C5_factory_returns_fresh_application (s : GTypeState)
    (h : Fresh s) :
    (my_application_new s).2.addr ∉ s.live ∧
    (my_application_new s).2.ty = "MyApplication" ∧
    is_a (my_application_new s).2.ty "GtkApplication" = true ∧
    is_a (my_application_new s).2.ty "GApplication" = true := by
  refine ⟨?_, rfl, rfl, rfl⟩
  intro hmem
  have haddr : (my_application_new s).2.addr = s.nextAddr := by
    unfold my_application_new
    by_cases hr : s.registered <;> simp [hr]
  exact absurd (haddr ▸ h _ hmem) (lt_irrefl s.nextAddr)

/-- Witness for C5 at the process-start state. -/
theorem C5_factory_returns_fresh_application_witness :
    (my_application_new initState).2.addr ∉ initState.live ∧
    (my_application_new initState).2.ty = "MyApplication" ∧
    is_a (my_application_new initState).2.ty "GtkApplication" = true ∧
    is_a (my_application_new initState).2.ty "GApplication" = true :=
  C5_factory_returns_fresh_application initState (fun _ ha => nomatch ha)

/-- A type identity in the toolkit's runtime type system: name, parent,
and whether the type is final. -/
structure GTypeInfo where
  name : String
  parent : Option String
  final : Bool
deriving DecidableEq, Repr

/-- The type `my_application.h` declares: `G_DECLARE_FINAL_TYPE`
registers `MyApplication` as a final specialization of `GtkApplication`. -/
def MyApplicationType : GTypeInfo :=
  { name := "MyApplication", parent := some "GtkApplication", final := true }

/-- Modelled from the spec: the toolkit's type-registration facility is
external to the given sources (the `G_DECLARE_FINAL_TYPE` expansion and
the toolkit live outside src/).  Spec 4.2: "The type is declared final —
no further specialization is possible"; deriving a subtype of a final
type fails at registration time. -/
def register_subtype (parent : GTypeInfo) (name : String) :
    Except String GTypeInfo :=
  if parent.final then Except.error "cannot derive a subtype of a final type"
  else Except.ok { name := name, parent := some parent.name, final := false }

/-- C6: the declared Application type is final — every attempt to derive a
further subtype of `MyApplication` fails at registration time. -/
theorem C6_my_application_is_final (name : String) :
    register_subtype MyApplicationType name =
      Except.error "cannot derive a subtype of a final type" := rfl

/-- C7: type registration is idempotent — from the process-start state the
first construction performs exactly one registration, and a second call to
the factory in the same process performs no further registration action. -/
theorem C7_registration_idempotent (s : GTypeState) :
    ((my_application_new initState).1).registrations = 1 ∧
    ((my_application_new (my_application_new s).1).1).registrations =
      ((my_application_new s).1).registrations := by
  constructor
  · rfl
  · by_cases hr : s.registered <;> simp [my_application_new, hr]

/-- Witness for C7 at an arbitrary concrete state. -/
theorem C7_registration_idempotent_witness :
    ((my_application_new initState).1).registrations = 1 ∧
    ((my_application_new (my_application_new initState).1).1).registrations =
      ((my_application_new initState).1).registrations :=
  C7_registration_idempotent initState

/-- C8: `main` performs no error handling of its own — for every toolkit,
error-producing toolkits included, its result is the run routine's outcome
verbatim, neither caught, surfaced, nor transformed. -/
theorem C8_no_error_handling (tk : Toolkit) (s : GTypeState) (argc : Nat)
    (argv : List String) :
    (main tk s argc argv).1 =
      tk.runOutcome (G_APPLICATION (my_application_new s).2) argc argv := rfl

/-- C9: the object handed to the toolkit's run routine is identically the
instance the factory returned — the `G_APPLICATION` cast preserves the
handle and the run call carries the very object the construct event
carries. -/
theorem C9_same_object_passed_to_run (tk : Toolkit) (s : GTypeState)
    (argc : Nat) (argv : List String) :
    ∃ app, G_APPLICATION app = app ∧
      (my_application_new s).2 = app ∧
      (main tk s argc argv).2.2 =
        [Event.construct app, Event.runCall app argc argv,
         Event.release app] :=
  ⟨(my_application_new s).2, rfl, rfl, main_trace tk s argc argv⟩

/-- C10: `main` is deterministic relative to its collaborators — whenever
the factory yields the same instance and the run routine yields the same
outcome, the exit outcome is the same, whatever the argument vectors
were: `main` never inspects `argv` except by forwarding it. -/
theorem C10_deterministic_in_collaborators (tk1 tk2 : Toolkit)
    (s1 s2 : GTypeState) (argc1 argc2 : Nat) (argv1 argv2 : List String)
    (_happ : (my_application_new s1).2 = (my_application_new s2).2)
    (hrun : tk1.runOutcome (G_APPLICATION (my_application_new s1).2)
        argc1 argv1 =
      tk2.runOutcome (G_APPLICATION (my_application_new s2).2) argc2 argv2) :
    (main tk1 s1 argc1 argv1).1 = (main tk2 s2 argc2 argv2).1 := hrun

/-- Witness for C10: two runs with different argument vectors but equal
collaborator results yield the same exit outcome. -/
theorem C10_deterministic_in_collaborators_witness :
    (main tkOk0 initState 0 []).1 =
      (main tkOk0 initState 2 ["prog", "x"]).1 :=
  C10_deterministic_in_collaborators tkOk0 tkOk0 initState initState
    0 2 [] ["prog", "x"] rfl rfl

end Fedi3
